import Mathlib

/-!
# Verification of the argetype settings engine

Shallow embedding of `src/argetype/__init__.py` (class `ConfigBase`): the
settings-introspection routine `setup`, the argument-spec builder
`add_arg_format`, the callable synthesizer `make_call` with Python's
call-binding semantics, the `set_settings` assignment loop, and the
post-parse copy-back of `parse_args`.  The behaviour of the external
`argparse` library is embedded only as far as the produced specs exercise it
(`store_const` toggles, typed value options, positional arguments).
-/

namespace Argetype

/-- Python type objects as they occur in the declarations handled by the
engine.  `empty` stands for `inspect.Parameter.empty` (the sentinel used for
a missing annotation); `malformed` stands for an arbitrary object that is
not a usable type (the source never inspects the type object except for the
`typ is bool` test, so one opaque tag suffices). -/
inductive PyType where
  | bool
  | int
  | float
  | str
  | empty
  | malformed
  deriving DecidableEq, Repr

/-- Python values flowing through the engine.  `none` is Python `None`;
`empty` is `inspect.Parameter.empty` (a class object, hence truthy);
a float is modelled exactly as the scaled decimal `mant / 10 ^ exp`
(e.g. `0.1` is `float 1 1`, `2.0` is `float 20 1`); every float a claim
handles is written with a fixed number of decimals, so representational
equality coincides with value equality wherever it is used. -/
inductive PyObj where
  | none
  | empty
  | bool (b : Bool)
  | int (n : Int)
  | float (mant : Int) (exp : Nat)
  | str (s : String)
  deriving DecidableEq, Repr

/-- Python truthiness, `bool(x)`.  `inspect.Parameter.empty` is a class
object and class objects are truthy. -/
def pyBool : PyObj → Bool
  | .none => false
  | .empty => true
  | .bool b => b
  | .int n => n != 0
  | .float mant _ => mant != 0
  | .str s => !s.isEmpty

/-- The keyword dictionary of one argument spec, mirroring the two dict
literals in `add_arg_format`: the boolean branch builds
`{'default': d, 'action': 'store_const', 'const': c}`, the other branch
builds `{'default': d, 'type': t}`. -/
inductive ArgKwargs where
  | toggle (default : PyObj) (const : PyObj)
  | valued (default : PyObj) (type : PyType)
  deriving DecidableEq, Repr

/-- One argument spec is the tuple `(flag_string, kwargs)` returned by
`add_arg_format`. -/
abbrev ArgSpec := String × ArgKwargs

/-- Lookup `s[1]['default']`: both kwarg dict shapes carry a `default`
key. -/
def kwargsDefault : ArgKwargs → PyObj
  | .toggle d _ => d
  | .valued d _ => d

/-- The `'type'` entry of the kwargs, when present (only the non-boolean
branch stores one). -/
def specType? (s : ArgSpec) : Option PyType :=
  match s.2 with
  | .valued _ t => some t
  | .toggle _ _ => none

/-- Whether the spec is a boolean toggle (`action='store_const'`). -/
def specIsToggle (s : ArgSpec) : Bool :=
  match s.2 with
  | .toggle _ _ => true
  | .valued _ _ => false

/-- The parser classifies an argument as optional iff its string starts
with a prefix character `-`; otherwise it is positional. -/
def isFlagToken (t : String) : Bool :=
  t.toList.head? == some '-'

/-- A spec is registered as a positional argument iff its flag string does
not start with `-`. -/
def specIsPositional (s : ArgSpec) : Bool :=
  !isFlagToken s.1

/-- The parser derives the destination attribute name of an option from
its option string by stripping the leading prefix characters
(`--name` becomes `name`; a positional string is already the name). -/
def destOf (flag : String) : String :=
  (flag.toList.dropWhile (fun c => c == '-')).asString

/-- Embedding of `s[0].replace('-','')` in `make_call`: removing every
occurrence of `'-'`. -/
def stripDashes (s : String) : String :=
  (s.toList.filter (fun c => !(c == '-'))).asString

/-- Source `ConfigBase.add_arg_format(name, default, typ, positional)`
(lines 103-117): boolean-typed fields become `--name` toggles whose
`const` is `not(default)`; every other field becomes a value-accepting
spec, positional (bare `name`) iff `positional` holds, recording the
declared type verbatim for parse-time coercion. -/
def add_arg_format (name : String) (default : PyObj) (typ : PyType)
    (positional : Bool) : ArgSpec :=
  if typ = PyType.bool then
    ("--" ++ name, .toggle default (.bool (!pyBool default)))
  else
    ((if positional then name else "--" ++ name), .valued default typ)

/-- One annotated field of the class body: its name, its annotation, and
its default value when the class body assigns one (`p in cls_vars`). -/
structure FieldDecl where
  name : String
  typ : PyType
  default : Option PyObj
  deriving DecidableEq, Repr

/-- One nested class member (a group): its attribute name and its own
annotated fields. -/
structure GroupDecl where
  name : String
  fields : List FieldDecl
  deriving DecidableEq, Repr

/-- One parameter of an overridden `setup` method (after the bound `self`),
as `inspect.signature` reports it: `default` is `PyObj.empty` when the
parameter has no default, `annotation` is `PyType.empty` when it has no
annotation (`annot` embeds the parameter attribute named after the
annotation). -/
structure SigParam where
  name : String
  default : PyObj
  annot : PyType
  deriving DecidableEq, Repr

/-- The declaration `setup` introspects: the class's annotated top-level
fields in declaration order (`typing.get_type_hints`), its nested
class-valued attributes (`annotation_groups`), and the parameter list of
its `setup` method for the signature fallback. -/
structure ClassDecl where
  fields : List FieldDecl
  groups : List GroupDecl
  setupParams : List SigParam
  deriving DecidableEq, Repr

/-- The shape of `self._settings` after `setup`: a flat spec list, or an
ordered mapping group-name -> spec list when groups exist. -/
inductive SettingsColl where
  | flat (specs : List ArgSpec)
  | grouped (entries : List (String × List ArgSpec))
  deriving DecidableEq, Repr

/-- Errors surfaced by the embedded code.  `valueError n` is
`ValueError: dictionary update sequence element has length n; 2 is
required`; `typeError` covers Python `TypeError`s; `parseError` is the
parser rejecting input.  `declarationError` models the spec's
`DeclarationError` class: the source defines no such class and never
raises it, the constructor exists only so statements about it can be
written. -/
inductive PyError where
  | valueError (elemLen : Nat)
  | typeError
  | parseError
  | declarationError
  deriving DecidableEq, Repr

instance {ε α : Type} [DecidableEq ε] [DecidableEq α] :
    DecidableEq (Except ε α) := fun a b =>
  match a, b with
  | .ok x, .ok y =>
      if h : x = y then isTrue (by rw [h])
      else isFalse (fun he => h (Except.ok.inj he))
  | .error e, .error f =>
      if h : e = f then isTrue (by rw [h])
      else isFalse (fun he => h (Except.error.inj he))
  | .ok _, .error _ => isFalse (fun he => Except.noConfusion he)
  | .error _, .ok _ => isFalse (fun he => Except.noConfusion he)

/-- The spec tuple built for annotated field `p`:
`add_arg_format(p, cls_vars[p] if p in cls_vars else None, annotations[p],
p not in cls_vars)` (source lines 72-74 and 84-87). -/
def fieldSpec (f : FieldDecl) : ArgSpec :=
  add_arg_format f.name (f.default.getD .none) f.typ f.default.isNone

/-- Embedding of `OrderedDict(('default', specs))` (source line 79).
`OrderedDict` iterates its single argument — here the 2-tuple
`(key, specs)` itself, not a list of pairs — and requires every element to
be a key-value sequence of length 2.  Element `#0` is the string `key`,
a sequence of its characters, so unless `key` has exactly 2 characters the
call raises `ValueError: dictionary update sequence element #0 has length
(len key); 2 is required`.  Were `key` 2 characters long, element `#1`
(the spec list) would need length 2 as well, and its members — tuples
containing a dict — would then be used as an unhashable key, raising
`TypeError`.  The expression can therefore never produce the intended
`{'default': specs}` mapping. -/
def orderedDictOfKeySpecsTuple (key : String) (specs : List ArgSpec) :
    Except PyError (List (String × List ArgSpec)) :=
  if key.length ≠ 2 then .error (.valueError key.length)
  else if specs.length ≠ 2 then .error (.valueError specs.length)
  else .error .typeError

/-- Source `ConfigBase.setup` (lines 49-101).  With annotations or nested
groups present, build the spec list from the annotated fields; if groups
exist, wrap the top-level specs (when any) via the `OrderedDict` call of
line 79 and append one keyed entry per group.  With neither, fall back to
the signature of `setup` itself, where a parameter is marked positional by
`not(bool(default))` — the truthiness of its default, the missing-default
sentinel `Parameter.empty` being truthy. -/
def setup (c : ClassDecl) : Except PyError SettingsColl :=
  if !c.fields.isEmpty || !c.groups.isEmpty then
    let topSpecs := c.fields.map fieldSpec
    if !c.groups.isEmpty then
      match (if topSpecs.isEmpty then .ok []
             else orderedDictOfKeySpecsTuple "default" topSpecs) with
      | .error e => .error e
      | .ok base =>
          .ok (.grouped (base ++
            c.groups.map (fun g => (g.name, g.fields.map fieldSpec))))
    else
      .ok (.flat topSpecs)
  else
    .ok (.flat (c.setupParams.map (fun p =>
      add_arg_format p.name p.default p.annot (!pyBool p.default))))

/-- An annotated top-level field sharing its name with a field of a nested
group (the flattened-namespace collision of the spec). -/
def hasCollision (c : ClassDecl) : Bool :=
  c.fields.any (fun f =>
    c.groups.any (fun g => g.fields.any (fun gf => gf.name == f.name)))

/-- Source `ConfigBase.make_call` (lines 125-139), parameter-name part:
`sorted(self._settings, key=lambda x: x[1]['default'] is None,
reverse=True)` is a stable descending sort on the Boolean key
"default is None", i.e. the specs whose default is `None` (the required
ones) in declaration order, then the rest in declaration order — a
partition.  Each flag string then has its dashes removed by
`s[0].replace('-','')`.  The generated function is
`def set_variables(self, <names>): self.set_settings(locals())`; per the
source's own `# TODO add default value`, no parameter carries a default. -/
def make_call (settings : List ArgSpec) : List String :=
  let p := settings.partition (fun s => kwargsDefault s.2 == PyObj.none)
  (p.1 ++ p.2).map (fun s => stripDashes s.1)

/-- Python call binding for the generated
`def set_variables(self, p1, ..., pn)` — no parameter defaults, no
varargs — invoked as `instance(*posArgs, **kwargs)` (so `self` is already
bound).  Binding raises `TypeError` when there are more positional
arguments than parameters, an unexpected keyword, a keyword for an
already-positionally-bound parameter, or a parameter left unbound
(missing required argument).  On success the bound locals are returned in
parameter order. -/
def bindCall (params : List String) (posArgs : List PyObj)
    (kwargs : List (String × PyObj)) :
    Except PyError (List (String × PyObj)) :=
  if params.length < posArgs.length then .error .typeError
  else if kwargs.any (fun kv => !params.contains kv.1) then .error .typeError
  else if kwargs.any (fun kv => (params.take posArgs.length).contains kv.1) then
    .error .typeError
  else
    let rest := params.drop posArgs.length
    if rest.all (fun p => kwargs.any (fun kv => kv.1 == p)) then
      .ok (params.zip posArgs ++
        rest.filterMap (fun p => (kwargs.lookup p).map (fun v => (p, v))))
    else .error .typeError

/-- The effect of one invocation of the generated callable: its body is
`self.set_settings(locals())`, and `set_settings` runs
`self.__setattr__(attr, vardict[attr])` for every entry of the passed
dict, so the attributes written are exactly the generated function's
locals — `self` first (bound to the facade object), then the bound
parameters in parameter order. -/
def genCallAssignments (params : List String) (selfObj : PyObj)
    (posArgs : List PyObj) (kwargs : List (String × PyObj)) :
    Except PyError (List (String × PyObj)) :=
  (bindCall params posArgs kwargs).map
    (fun bound => ("self", selfObj) :: bound)

/-- Value of a decimal digit character. -/
def digitVal (c : Char) : Option Nat :=
  if c.isDigit then some (c.toNat - '0'.toNat) else none

/-- Decimal reading of an unsigned digit string, as Python `int` accepts
it: the number, or failure on an empty or non-digit string. -/
def natOfChars (l : List Char) : Option Nat :=
  if l.isEmpty then none
  else l.foldl (fun acc c =>
    match acc, digitVal c with
    | some n, some d => some (n * 10 + d)
    | _, _ => none) (some 0)

/-- Decimal reading with an optional leading minus sign, as Python
`int(token)`. -/
def intOfChars : List Char → Option Int
  | '-' :: tl => (natOfChars tl).map (fun n => -(n : Int))
  | l => (natOfChars l).map (fun n => (n : Int))

/-- Split a character list at the dot separators, for `float(token)`. -/
def splitDot : List Char → List (List Char)
  | [] => [[]]
  | c :: tl =>
      match splitDot tl, c == '.' with
      | r, true => [] :: r
      | [], false => [[c]]
      | h :: t, false => (c :: h) :: t

/-- Parse-time coercion `type(token)` performed by the parser for
value-accepting specs.  `int`/`float`/`str` behave as the Python
constructors on the decimal token forms the engine handles; `bool(token)`
is token truthiness; calling `Parameter.empty` or a malformed type object
raises `TypeError`. -/
def coerce (typ : PyType) (tok : String) : Except PyError PyObj :=
  match typ with
  | .int =>
      match intOfChars tok.toList with
      | some n => .ok (.int n)
      | none => .error .parseError
  | .str => .ok (.str tok)
  | .bool => .ok (.bool (!tok.isEmpty))
  | .float =>
      match splitDot tok.toList with
      | [a] =>
          match intOfChars a with
          | some n => .ok (.float n 0)
          | none => .error .parseError
      | [a, b] =>
          match intOfChars a, natOfChars b with
          | some n, some frac =>
              .ok (.float
                (n * ((10 : Int) ^ b.length) +
                  (if n < 0 then -(frac : Int) else (frac : Int)))
                b.length)
          | _, _ => .error .parseError
      | _ => .error .parseError
  | .empty => .error .typeError
  | .malformed => .error .typeError

/-- The option spec whose option string equals the token, if any. -/
def findSpec (specs : List ArgSpec) (t : String) : Option ArgSpec :=
  specs.find? (fun s => s.1 == t)

/-- Overwrite the value of attribute `k` in the namespace. -/
def setVal (ns : List (String × PyObj)) (k : String) (v : PyObj) :
    List (String × PyObj) :=
  ns.map (fun p => if p.1 == k then (k, v) else p)

/-- The namespace the parser starts from: every spec's destination bound
to its declared default. -/
def defaultNS (specs : List ArgSpec) : List (String × PyObj) :=
  specs.map (fun s => (destOf s.1, kwargsDefault s.2))

/-- Token-consumption loop of the embedded parser.  `opts` are the option
specs, `poss` the positional specs still awaiting a value, `pending` an
option destination/type waiting for its value token.  A token equal to an
option string triggers that option: a toggle stores its `const`, a valued
option awaits the next token and coerces it.  Any other `-`-prefixed token
is an unknown flag (error); a bare token feeds the next positional.  At
the end, a still-required positional or a value-less valued option is a
parse error; untouched destinations keep their defaults. -/
def parseLoop (opts : List ArgSpec) :
    List ArgSpec → List (String × PyObj) → Option (String × PyType) →
    List String → Except PyError (List (String × PyObj))
  | poss, ns, none, [] =>
      if poss.isEmpty then .ok ns else .error .parseError
  | _, _, some _, [] => .error .parseError
  | poss, ns, some (dst, ty), t :: rest =>
      match coerce ty t with
      | .ok v => parseLoop opts poss (setVal ns dst v) none rest
      | .error e => .error e
  | poss, ns, none, t :: rest =>
      match findSpec opts t with
      | some s =>
          match s.2 with
          | .toggle _ c => parseLoop opts poss (setVal ns (destOf s.1) c) none rest
          | .valued _ ty => parseLoop opts poss ns (some (destOf s.1, ty)) rest
      | none =>
          if isFlagToken t then .error .parseError
          else
            match poss with
            | [] => .error .parseError
            | p :: ptl =>
                match p.2 with
                | .valued _ ty =>
                    match coerce ty t with
                    | .ok v => parseLoop opts ptl (setVal ns (destOf p.1) v) none rest
                    | .error e => .error e
                | .toggle _ _ => .error .typeError

/-- The external parser applied to the registered specs and a token list:
options are the specs whose string starts with `-`, positionals the
others, and parsing starts from the declared defaults. -/
def parse (specs : List ArgSpec) (tokens : List String) :
    Except PyError (List (String × PyObj)) :=
  parseLoop (specs.filter (fun s => isFlagToken s.1))
    (specs.filter (fun s => !isFlagToken s.1))
    (defaultNS specs) none tokens

/-- The copy-back loop of `parse_args` (source lines 160-162):
`for a in self._annotations: if a in self.settings:
self.__setattr__(a, getattr(self.settings, a))` — the list of attribute
assignments it performs, in loop order. -/
def copyBack (annots : List String) (ns : List (String × PyObj)) :
    List (String × PyObj) :=
  annots.filterMap (fun a => (ns.lookup a).map (fun v => (a, v)))

/-- Perform a list of attribute assignments, in order, on the facade's
field state (`__setattr__` overwrites). -/
def applyAssigns (as' : List (String × PyObj))
    (st : String → Option PyObj) : String → Option PyObj :=
  as'.foldl (fun f kv => fun n => if n = kv.1 then some kv.2 else f n) st

/-- Source `ConfigBase.parse_args` (lines 157-163) as a transformer of the
facade's field state: run the parser on the token list, then copy every
parsed value whose name is among the annotated field names back onto the
facade.  A parser failure terminates the program, leaving the state
untouched. -/
def parse_args (specs : List ArgSpec) (annots : List String)
    (tokens : List String) (st : String → Option PyObj) :
    String → Option PyObj :=
  match parse specs tokens with
  | .ok ns => applyAssigns (copyBack annots ns) st
  | .error _ => st

/-! ## Concrete declarations used by the scenarios -/

/-- Scenario 1 declaration: `a: int` (required), `b: float = 0.1`,
`c: str = "a"`. -/
def scenario1 : ClassDecl :=
  { fields := [⟨"a", .int, none⟩,
               ⟨"b", .float, some (.float 1 1)⟩,
               ⟨"c", .str, some (.str "a")⟩],
    groups := [], setupParams := [] }

/-- The specs `setup` produces for scenario 1. -/
def scenario1Specs : List ArgSpec :=
  [("a", .valued .none .int),
   ("--b", .valued (.float 1 1) .float),
   ("--c", .valued (.str "a") .str)]

/-- Scenario 2 spec list: the single spec of the declaration
`flag: bool = False`. -/
def flagSpecs : List ArgSpec :=
  [add_arg_format "flag" (.bool false) .bool false]

/-- A declaration with one annotated top-level field and one nested group
member. -/
def mixedDecl : ClassDecl :=
  { fields := [⟨"a", .int, some (.int 1)⟩],
    groups := [⟨"Net", [⟨"host", .str, some (.str "localhost")⟩,
                        ⟨"port", .int, some (.int 8080)⟩]⟩],
    setupParams := [] }

/-- A declaration whose top-level field `host` collides with the `host`
field of its nested group. -/
def collidingDecl : ClassDecl :=
  { fields := [⟨"host", .int, some (.int 1)⟩],
    groups := [⟨"Net", [⟨"host", .str, some (.str "x")⟩]⟩],
    setupParams := [] }

/-- A declaration with no annotated fields whose `setup` signature has one
parameter with default `0` and one with no default. -/
def fallbackDecl : ClassDecl :=
  { fields := [], groups := [],
    setupParams := [⟨"n", .int 0, .int⟩, ⟨"m", .empty, .int⟩] }

/-! ## Helper lemmas -/

theorem toList_dashdash (s : String) :
    ("--" ++ s).toList = '-' :: '-' :: s.toList := by
  show ("--" ++ s).data = '-' :: '-' :: s.data
  rw [String.data_append]
  rfl

theorem dropWhile_of_head_ne (l : List Char)
    (h : l.head? ≠ some '-') :
    l.dropWhile (fun c => c == '-') = l := by
  cases l with
  | nil => rfl
  | cons c tl =>
      have hne : c ≠ '-' := by
        intro hcc
        exact h (by rw [hcc]; rfl)
      have hc : (c == '-') = false := by
        simpa using hne
      rw [List.dropWhile_cons_of_neg (by simp [hc])]

theorem destOf_dashdash (s : String) (h : s.toList.head? ≠ some '-') :
    destOf ("--" ++ s) = s := by
  unfold destOf
  rw [toList_dashdash]
  show (List.dropWhile (fun c => c == '-') ('-' :: '-' :: s.toList)).asString = s
  rw [show List.dropWhile (fun c => c == '-') ('-' :: '-' :: s.toList)
        = List.dropWhile (fun c => c == '-') s.toList by
      simp [List.dropWhile]]
  rw [dropWhile_of_head_ne s.toList h]
  rfl

theorem isFlagToken_dashdash (s : String) :
    isFlagToken ("--" ++ s) = true := by
  simp [isFlagToken, toList_dashdash]

theorem lookup_append (n : String) (l1 l2 : List (String × PyObj)) :
    List.lookup n (l1 ++ l2)
      = match List.lookup n l1 with
        | some v => some v
        | none => List.lookup n l2 := by
  induction l1 with
  | nil => simp [List.lookup]
  | cons kv tl ih =>
      cases kv with
      | mk k v =>
          by_cases hk : n = k
          · simp [List.lookup, hk]
          · have hk' : (n == k) = false := by simpa using hk
            simp [List.lookup, hk', ih]

theorem applyAssigns_apply (as' : List (String × PyObj)) :
    ∀ (st : String → Option PyObj) (n : String),
      applyAssigns as' st n
        = match List.lookup n as'.reverse with
          | some v => some v
          | none => st n := by
  induction as' with
  | nil => intro st n; simp [applyAssigns, List.lookup]
  | cons kv tl ih =>
      intro st n
      have step : applyAssigns (kv :: tl) st
          = applyAssigns tl (fun m => if m = kv.1 then some kv.2 else st m) := rfl
      rw [step, ih, List.reverse_cons, lookup_append]
      cases hl : List.lookup n tl.reverse with
      | some v => rfl
      | none =>
          by_cases hk : n = kv.1
          · have hk' : (n == kv.1) = true := by simpa using hk
            simp [List.lookup, hk', hk]
          · have hk' : (n == kv.1) = false := by simpa using hk
            simp [List.lookup, hk', hk]

theorem lookup_isSome_iff (n : String) (ns : List (String × PyObj)) :
    (List.lookup n ns).isSome = true ↔ ∃ v, (n, v) ∈ ns := by
  induction ns with
  | nil => simp [List.lookup]
  | cons kv tl ih =>
      cases kv with
      | mk k v =>
          by_cases hk : n = k
          · subst hk
            simp [List.lookup]
          · have hk' : (n == k) = false := by simpa using hk
            simp [List.lookup, hk', ih, hk]

theorem lookup_ex_iff (n : String) (ns : List (String × PyObj)) :
    (∃ v, List.lookup n ns = some v) ↔ ∃ v, (n, v) ∈ ns := by
  rw [← Option.isSome_iff_exists]
  exact lookup_isSome_iff n ns

theorem applyAssigns_idem (as' : List (String × PyObj))
    (st : String → Option PyObj) :
    applyAssigns as' (applyAssigns as' st) = applyAssigns as' st := by
  funext n
  rw [applyAssigns_apply, applyAssigns_apply]
  cases List.lookup n as'.reverse with
  | some v => rfl
  | none => rfl

/-! ## The claims -/

/-- C1: for every boolean-typed field, the derived spec is a `--name` flag
whose stored constant is the logical negation of the declared default, so
that supplying the flag yields the negated default and omitting it yields
the default; instantiating the default at `false` gives scenario 2, and at
`true` the toggle-to-`false` case. -/
theorem claim_C1_bool_flag_toggles_declared_default
    (name : String) (b : Bool) (pos : Bool)
    (h : name.toList.head? ≠ some '-') :
    add_arg_format name (.bool b) .bool pos
        = ("--" ++ name, .toggle (.bool b) (.bool (!b)))
    ∧ parse [add_arg_format name (.bool b) .bool pos] ["--" ++ name]
        = .ok [(name, .bool (!b))]
    ∧ parse [add_arg_format name (.bool b) .bool pos] []
        = .ok [(name, .bool b)] := by
  have hspec : add_arg_format name (.bool b) .bool pos
      = ("--" ++ name, .toggle (.bool b) (.bool (!b))) := by
    simp [add_arg_format, pyBool]
  refine ⟨hspec, ?_, ?_⟩
  · rw [hspec]
    simp [parse, parseLoop, findSpec, setVal, defaultNS, List.filter,
      List.find?, isFlagToken_dashdash, destOf_dashdash _ h]
  · rw [hspec]
    simp [parse, parseLoop, defaultNS, List.filter, kwargsDefault,
      isFlagToken_dashdash, destOf_dashdash _ h]

/-- C1 witness: the scenario 2 instance (`flag: bool = False`). -/
theorem claim_C1_witness :
    ("flag".toList.head? ≠ some '-')
    ∧ (add_arg_format "flag" (.bool false) .bool false
        = ("--" ++ "flag", .toggle (.bool false) (.bool true))
    ∧ parse [add_arg_format "flag" (.bool false) .bool false] ["--" ++ "flag"]
        = .ok [("flag", .bool true)]
    ∧ parse [add_arg_format "flag" (.bool false) .bool false] []
        = .ok [("flag", .bool false)]) :=
  ⟨by decide, claim_C1_bool_flag_toggles_declared_default "flag" false false
    (by decide)⟩

/-- C2: on scenario 1 the introspected specs and the synthesized
parameter order `a, b, c` are as claimed, and parsing `["5","--b","2.0"]`
resolves `a=5, b=2.0, c="a"`; but invoking the synthesized callable as
`applyCall(5, b=2.0)` does not succeed: the generated signature carries no
parameter defaults (the source's `TODO add default value`), so binding
stops with a missing-required-argument `TypeError` for `c`. -/
theorem claim_C2_synthesized_call_lacks_defaults :
    setup scenario1 = .ok (.flat scenario1Specs)
    ∧ make_call scenario1Specs = ["a", "b", "c"]
    ∧ bindCall ["a", "b", "c"] [.int 5] [("b", .float 20 1)]
        = .error .typeError
    ∧ parse scenario1Specs ["5", "--b", "2.0"]
        = .ok [("a", .int 5), ("b", .float 20 1), ("c", .str "a")] :=
  ⟨rfl, rfl, rfl, by decide⟩

/-- C3: a declaration with both top-level annotated fields and a nested
group does not produce a grouped collection — introspection raises
`ValueError` (the `OrderedDict` of source line 79 is applied to the tuple
`('default', specs)` itself, whose first element is the 7-character
string `"default"`, not a key-value pair). -/
theorem claim_C3_mixed_declaration_crashes :
    setup mixedDecl = .error (.valueError 7) := rfl

/-- C4: in the signature fallback, positional-ness is computed from the
truthiness of the default (`not(bool(default))`), not from its absence: a
parameter with default `0` becomes positional (bare `n`), while a
parameter with no default (the truthy `Parameter.empty` sentinel) becomes
optional (`--m`). -/
theorem claim_C4_fallback_positional_by_truthiness :
    setup fallbackDecl
      = .ok (.flat [("n", .valued (.int 0) .int),
                    ("--m", .valued .empty .int)])
    ∧ specIsPositional ("n", .valued (.int 0) .int) = true
    ∧ specIsPositional ("--m", .valued .empty .int) = false :=
  ⟨rfl, rfl, rfl⟩

/-- C5 counterexample: on a declaration whose top-level field `host`
collides with the nested group field `host`, introspection fails with
`ValueError`, not with a `DeclarationError` (no such class exists in the
source, and no collision check is performed). -/
theorem claim_C5_counterexample :
    hasCollision collidingDecl = true
    ∧ setup collidingDecl = .error (.valueError 7)
    ∧ setup collidingDecl ≠ .error .declarationError :=
  ⟨rfl, rfl, by decide⟩

/-- C5 amended: for every declaration with a top-level/nested name
collision, introspection does abort construction before any parsing — but
with the `ValueError` that line 79 raises for any declaration mixing
top-level fields with groups, not with a `DeclarationError`. -/
theorem claim_C5_collision_aborts_with_valueerror (c : ClassDecl)
    (h : hasCollision c = true) :
    setup c = .error (.valueError 7) := by
  cases hcf : c.fields with
  | nil => rw [hasCollision, hcf] at h; simp at h
  | cons f tf =>
      cases hcg : c.groups with
      | nil => rw [hasCollision, hcg] at h; simp at h
      | cons g tg =>
          have hlen2 : ¬("default".length = 2) := by decide
          have h7 : "default".length = 7 := by decide
          simp [setup, hcf, hcg, orderedDictOfKeySpecsTuple, hlen2, h7]

/-- C5 witness: the amended statement at the colliding declaration. -/
theorem claim_C5_witness :
    setup collidingDecl = .error (.valueError 7) :=
  claim_C5_collision_aborts_with_valueerror collidingDecl rfl

/-- C6: the copy-back loop of `parse_args` writes an attribute `n` iff `n`
is among the originally annotated field names and is present on the
parsed-values object — extra parser keys never reach the facade. -/
theorem claim_C6_copyback_writes_exactly_annotated_present
    (annots : List String) (ns : List (String × PyObj)) (n : String) :
    n ∈ (copyBack annots ns).map Prod.fst
      ↔ n ∈ annots ∧ (List.lookup n ns).isSome := by
  induction annots with
  | nil => simp [copyBack]
  | cons a tl ih =>
      by_cases ha : n = a
      · subst ha
        cases hl : List.lookup n ns with
        | some v => simp [copyBack, List.filterMap_cons, hl, ih]
        | none => simp [copyBack, List.filterMap_cons, hl, ih]
      · cases hl : List.lookup a ns with
        | some v =>
            simp [copyBack, List.filterMap_cons, hl, ih, ha,
              lookup_ex_iff]
        | none =>
            simp [copyBack, List.filterMap_cons, hl, ih, ha,
              lookup_ex_iff]

/-- C7 counterexample: for a malformed declared type the builder does not
degrade to a string-typed spec — the spec records the malformed type
object verbatim. -/
theorem claim_C7_counterexample :
    specType? (add_arg_format "x" PyObj.none PyType.malformed false)
        = some PyType.malformed
    ∧ some PyType.malformed ≠ some PyType.str :=
  ⟨rfl, by decide⟩

/-- C7 amended: the builder is total — every input yields a spec, no
exception — and for every non-boolean declared type, malformed ones
included, the produced spec records the given type verbatim (failure, if
any, surfaces only at parse time). -/
theorem claim_C7_builder_total_records_type_verbatim
    (name : String) (d : PyObj) (typ : PyType) (pos : Bool)
    (h : typ ≠ PyType.bool) :
    specType? (add_arg_format name d typ pos) = some typ := by
  simp [add_arg_format, h, specType?]

/-- C7 witness: the amended statement at a malformed type. -/
theorem claim_C7_witness :
    specType? (add_arg_format "y" PyObj.none PyType.malformed true)
        = some PyType.malformed :=
  claim_C7_builder_total_records_type_verbatim "y" .none .malformed true
    (by decide)

/-- C8: a derived spec is never both positional and a boolean toggle, and
a boolean-typed field always receives the optional `--name` flag form
regardless of the `positional` argument. -/
theorem claim_C8_toggle_never_positional
    (name : String) (d : PyObj) (typ : PyType) (pos : Bool) :
    ¬(specIsPositional (add_arg_format name d typ pos) = true
        ∧ specIsToggle (add_arg_format name d typ pos) = true)
    ∧ (typ = PyType.bool →
        (add_arg_format name d typ pos).1 = "--" ++ name) := by
  by_cases ht : typ = PyType.bool
  · subst ht
    refine ⟨fun hc => ?_, fun _ => by simp [add_arg_format]⟩
    have hp := hc.1
    rw [show add_arg_format name d PyType.bool pos
          = ("--" ++ name, .toggle d (.bool (!pyBool d))) by
        simp [add_arg_format]] at hp
    simp [specIsPositional, isFlagToken_dashdash] at hp
  · refine ⟨fun hc => ?_, fun hb => absurd hb ht⟩
    have htog := hc.2
    simp [add_arg_format, ht, specIsToggle] at htog

/-- C9: re-parsing is idempotent and last-write-wins — running
`parse_args` twice with the same tokens leaves the same facade state as
running it once — and for the boolean field with declared default `false`,
a parse supplying the toggle flag yields `true` from any prior state (the
toggle negates the declared default, never the stored value, so repeated
independent parses are not cumulative). -/
theorem claim_C9_reparse_idempotent_last_write_wins :
    (∀ (specs : List ArgSpec) (annots : List String)
        (tokens : List String) (st : String → Option PyObj),
      parse_args specs annots tokens (parse_args specs annots tokens st)
        = parse_args specs annots tokens st)
    ∧ (∀ st : String → Option PyObj,
      parse_args flagSpecs ["flag"] ["--flag"] st "flag"
        = some (.bool true)) := by
  constructor
  · intro specs annots tokens st
    cases hp : parse specs tokens with
    | ok ns => simp [parse_args, hp, applyAssigns_idem]
    | error e => simp [parse_args, hp]
  · intro st
    have hp : parse flagSpecs ["--flag"] = .ok [("flag", .bool true)] := rfl
    have hcb : copyBack ["flag"] [("flag", .bool true)]
        = [("flag", .bool true)] := rfl
    simp [parse_args, hp, hcb, applyAssigns]

/-- C10: whenever the synthesized callable's binding succeeds, the body
`self.set_settings(locals())` assigns the whole local scope — the
attribute `self` (bound to the facade object itself) first, then the
bound parameters — so the write-set is not limited to the declared field
names. -/
theorem claim_C10_call_writes_self_attr
    (params : List String) (selfObj : PyObj) (posArgs : List PyObj)
    (kwargs : List (String × PyObj)) (bound : List (String × PyObj))
    (h : bindCall params posArgs kwargs = .ok bound) :
    genCallAssignments params selfObj posArgs kwargs
        = .ok (("self", selfObj) :: bound)
    ∧ "self" ∈ (("self", selfObj) :: bound).map Prod.fst := by
  refine ⟨?_, by simp⟩
  simp [genCallAssignments, h, Except.map]

/-- C10 witness: a one-parameter callable bound with one positional
argument. -/
theorem claim_C10_witness :
    genCallAssignments ["a"] PyObj.none [PyObj.int 1] []
        = .ok [("self", PyObj.none), ("a", PyObj.int 1)]
    ∧ "self" ∈ [("self", PyObj.none), ("a", PyObj.int 1)].map Prod.fst :=
  claim_C10_call_writes_self_attr ["a"] .none [.int 1] [] [("a", .int 1)] rfl

end Argetype
